import Mathlib

/-!
Verification development for the Polar Cloud Klipper service
(`src/polar_cloud.py`, class `PolarCloudService`).

The Python service is shallowly embedded: every stateful handler becomes a
pure function from an explicit state (plus oracles standing for external
inputs such as Moonraker query results, webcam captures, the JPEG encoder
and HTTP outcomes) to a new state together with a list of observable
actions (emitted Socket.IO messages, HTTP POSTs, config persistence,
deliberate disconnects).  Time is modelled with integers, byte strings with
`List Nat`.
-/

namespace PolarCloud

/-! ## Polar Cloud status constants (`PolarCloudService.PSTATE_*`) -/

def PSTATE_IDLE : Nat := 0
def PSTATE_SERIAL : Nat := 1
def PSTATE_PREPARING : Nat := 2
def PSTATE_PRINTING : Nat := 3
def PSTATE_PAUSED : Nat := 4
def PSTATE_POSTPROCESSING : Nat := 5
def PSTATE_CANCELLING : Nat := 6
def PSTATE_COMPLETE : Nat := 7
def PSTATE_UPDATING : Nat := 8
def PSTATE_ERROR : Nat := 12

/-- Python truthiness of an optional string (`None` and `""` are falsy). -/
def truthyStr : Option String → Bool
  | none => false
  | some s => s != ""

/-! ## Printer status mapping (`get_printer_status`)

`print_stats` is the Moonraker `print_stats` query result; only its
`state` string drives the status-code determination, so the embedding
carries just that field.  `none` stands for an absent/failed
`print_stats` query (the `elif print_stats and ...` guard failing). -/

structure PrintStats where
  state : String
deriving DecidableEq

/-- The cloud-job tracking flags of `PolarCloudService` that
`get_printer_status` consults. -/
structure JobState where
  jobIsPreparing : Bool
  jobIsCancelling : Bool
  isPrintingCloudJob : Bool
  currentJobId : Option String
deriving DecidableEq

/-- Status-code determination of `get_printer_status`
(src/polar_cloud.py lines 680-832), embedding exactly the branch
structure that selects the `status` field of the returned dict:
override first, then the preparing branch, then the `print_stats.state`
dispatch. -/
def get_printer_status (override : Option Nat) (js : JobState)
    (stats : Option PrintStats) : Nat :=
  match override with
  | some o => o
  | none =>
    if js.jobIsPreparing && js.isPrintingCloudJob && truthyStr js.currentJobId then
      PSTATE_PREPARING
    else
      match stats with
      | none => PSTATE_IDLE
      | some st =>
        if st.state = "printing" then
          if js.jobIsCancelling && js.isPrintingCloudJob then PSTATE_CANCELLING
          else if js.isPrintingCloudJob then PSTATE_PRINTING
          else PSTATE_SERIAL
        else if st.state = "paused" then PSTATE_PAUSED
        else if st.state = "complete" then
          if js.isPrintingCloudJob && truthyStr js.currentJobId then PSTATE_POSTPROCESSING
          else PSTATE_COMPLETE
        else if st.state = "error" then PSTATE_ERROR
        else PSTATE_IDLE

/-- The status mapping exactly as the specification's claim C5 words it
(spec section 4.3, priority order): a preparing-phase cloud job yields
PREPARING before any engine-state mapping; `printing` yields CANCELLING
when a cancel was requested, else PRINTING for a cloud job, else SERIAL;
`paused` yields PAUSED; `complete` yields POSTPROCESSING while a cloud
job is still tracked, else COMPLETE; `error` yields ERROR; anything else
yields IDLE.  This definition follows the claim's words and is compared
against `get_printer_status`, which follows the source. -/
def claimed_status (preparing cancelRequested cloudJob : Bool)
    (jobId : Option String) (engineState : String) : Nat :=
  if cloudJob && truthyStr jobId && preparing then PSTATE_PREPARING
  else if engineState = "printing" then
    if cancelRequested then PSTATE_CANCELLING
    else if cloudJob then PSTATE_PRINTING
    else PSTATE_SERIAL
  else if engineState = "paused" then PSTATE_PAUSED
  else if engineState = "complete" then
    if cloudJob && truthyStr jobId then PSTATE_POSTPROCESSING
    else PSTATE_COMPLETE
  else if engineState = "error" then PSTATE_ERROR
  else PSTATE_IDLE

/-! ## Job completion monitoring (`monitor_print_completion`) -/

/-- An outgoing `"job"` message (`send_job_completion`): the fields the
claims reason about. -/
structure JobMsg where
  jobId : String
  jobState : String
deriving DecidableEq

/-- The service state consulted by `monitor_print_completion` and
`send_job_completion`. -/
structure MonitorState where
  connected : Bool
  serialNumber : Option String
  job : JobState
deriving DecidableEq

/-- Embedding of `send_job_completion` (lines 1383-1438): returns early with no
emission when not connected or the serial number is unset; otherwise
emits one `"job"` message with the given state string. -/
def send_job_completion (st : MonitorState) (jobId : String)
    (state : String) : List JobMsg :=
  if !st.connected || !truthyStr st.serialNumber then []
  else [{ jobId := jobId, jobState := state }]

/-- The cloud-job reset block of `monitor_print_completion`
(lines 1463-1471 and 1485-1493): clears the cloud-job flags and
references; note it does not touch `job_is_cancelling`. -/
def resetCloudJob (js : JobState) : JobState :=
  { js with isPrintingCloudJob := false, currentJobId := none, jobIsPreparing := false }

/-- Embedding of `monitor_print_completion` (lines 1440-1496): recomputes the mapped
status via `get_printer_status`, and if a cloud job is tracked emits a
completion notification on COMPLETE ("completed") or IDLE/ERROR
("canceled"), then clears the cloud job.  `override`/`stats` are the
oracle inputs of the underlying status query. -/
def monitor_print_completion (st : MonitorState) (override : Option Nat)
    (stats : Option PrintStats) : MonitorState × List JobMsg :=
  let printerStatus := get_printer_status override st.job stats
  if st.job.isPrintingCloudJob && truthyStr st.job.currentJobId then
    let j := st.job.currentJobId.getD ""
    if printerStatus = PSTATE_COMPLETE then
      ({ st with job := resetCloudJob st.job }, send_job_completion st j "completed")
    else if printerStatus = PSTATE_IDLE || printerStatus = PSTATE_ERROR then
      ({ st with job := resetCloudJob st.job }, send_job_completion st j "canceled")
    else (st, [])
  else (st, [])

/-! ## Status transmission (`send_status`) -/

/-- A computed printer-status snapshot as transmitted by `send_status`.
The transmission policy dispatches on the `status` code and compares the
whole dict for equality; the remaining fields are carried opaquely. -/
structure Snapshot where
  status : Nat
  fields : List (String × String)
deriving DecidableEq

/-- The dedup state of `send_status`: `self.last_status`. -/
structure SendState where
  lastStatus : Option Snapshot
deriving DecidableEq

/-- Embedding of `send_status` (lines 1270-1293): always transmit when the status code
is PRINTING, SERIAL or PAUSED; otherwise skip when the snapshot equals
the previously transmitted one, else transmit.  The returned Bool records
whether a `"status"` message was emitted. -/
def send_status (st : SendState) (snap : Snapshot) : SendState × Bool :=
  if snap.status = PSTATE_PRINTING ∨ snap.status = PSTATE_SERIAL ∨
      snap.status = PSTATE_PAUSED then
    ({ lastStatus := some snap }, true)
  else if st.lastStatus.isSome ∧ st.lastStatus = some snap then
    (st, false)
  else
    ({ lastStatus := some snap }, true)

/-- Iterate `send_status` over a sequence of computed snapshots, recording
per-snapshot whether it was transmitted. -/
def run_send_status (st : SendState) : List Snapshot → SendState × List Bool
  | [] => (st, [])
  | s :: rest =>
    let r := send_status st s
    let rr := run_send_status r.1 rest
    (rr.1, r.2 :: rr.2)

/-! ## Image resizing (`resize_image`)

The JPEG encoder (PIL's `image.save`) is external; it is abstracted as an
oracle `enc : Nat → Nat × Nat → List Nat` mapping a quality setting and
the image dimensions to the encoded bytes.  The transformed source image
has dimensions `w × h`; `imageData` is the raw input byte string;
`maxSize` is the byte budget. -/

/-- The quality ladder of `resize_image`: `range(80, 10, -10)`. -/
def qualitySteps : List Nat := [80, 70, 60, 50, 40, 30, 20]

/-- The scale ladder of `resize_image`: `[0.8, 0.6, 0.4, 0.2]`, kept as
exact rationals `num/den`.  (`int(width * scale)` floors the product;
the float product agrees with the exact rational floor for these
scales on realistic dimensions, and none of the proved properties
depend on the exact scaled dimensions.) -/
def scaleSteps : List (Nat × Nat) := [(4, 5), (3, 5), (2, 5), (1, 5)]

/-- Outcome of the scale loop of `resize_image` (lines 1064-1077): a
scaled encoding fit under the budget; every step was tried without one
fitting; or `image.resize` raised because a scaled dimension was zero
(PIL rejects non-positive dimensions, reachable for a valid source image
with a dimension of at most 4 px). -/
inductive ScalePhase
  | fits (data : List Nat)
  | exhausted
  | raised
deriving DecidableEq

/-- The scale loop of `resize_image`: for each scale in order, compute
the floored scaled dimensions, resize — raising on a zero dimension —
then re-encode at quality 60 and accept the first result under the
budget. -/
def scaleAttempts (enc : Nat → Nat × Nat → List Nat) (w h maxSize : Nat) :
    List (Nat × Nat) → ScalePhase
  | [] => ScalePhase.exhausted
  | s :: rest =>
    let nw := w * s.1 / s.2
    let nh := h * s.1 / s.2
    if nw = 0 || nh = 0 then ScalePhase.raised
    else
      let d := enc 60 (nw, nh)
      if d.length ≤ maxSize then ScalePhase.fits d
      else scaleAttempts enc w h maxSize rest

/-- Embedding of `resize_image` (lines 1010-1084): encode at quality 95;
if within budget, done; else take the first quality in
`range(80, 10, -10)` whose encoding fits; else run the scale loop over
`[0.8, 0.6, 0.4, 0.2]` at quality 60; if it exhausts, truncate the raw
input bytes to the budget; if a step raised, the outer
`except Exception` handler (lines 1082-1084) returns the raw input
unmodified.  The in-model raise source is the zero-dimension resize;
`Image.open`/`convert` failures concern byte strings that are not valid
images and lie outside the claim's input space, and every other callee
(`get_webcam_settings`, `image.save`) catches its own errors or operates
on an already-validated image. -/
def resize_image (enc : Nat → Nat × Nat → List Nat) (w h : Nat)
    (imageData : List Nat) (maxSize : Nat) : List Nat :=
  let first := enc 95 (w, h)
  if first.length ≤ maxSize then first
  else
    match qualitySteps.find? (fun q => (enc q (w, h)).length ≤ maxSize) with
    | some q => enc q (w, h)
    | none =>
      match scaleAttempts enc w h maxSize scaleSteps with
      | ScalePhase.fits d => d
      | ScalePhase.exhausted => imageData.take maxSize
      | ScalePhase.raised => imageData

/-- Every candidate of the quality and scale ladders exceeds the budget:
together with every scale step producing positive dimensions, the
condition under which `resize_image` reaches its truncation
fallback. -/
def ladderAllFail (enc : Nat → Nat × Nat → List Nat) (w h maxSize : Nat) : Bool :=
  decide (maxSize < (enc 95 (w, h)).length) &&
  qualitySteps.all (fun q => maxSize < (enc q (w, h)).length) &&
  scaleSteps.all (fun s => maxSize < (enc 60 (w * s.1 / s.2, h * s.1 / s.2)).length)

/-- Every scale step yields positive floored dimensions, i.e. the scale
loop cannot raise (true exactly when both source dimensions exceed
4 px, since the smallest scale is 0.2). -/
def scaleDimsPositive (w h : Nat) : Bool :=
  scaleSteps.all (fun s => decide (0 < w * s.1 / s.2) && decide (0 < h * s.1 / s.2))

/-! ## Presigned-URL upload pipeline (`upload_image_to_cloud`,
`handle_image_uploads`) -/

/-- A cached presigned upload slot (`self.upload_urls[type]`).
`expires` is `url_data.get('expires')`: possibly absent, and tested for
Python truthiness before the staleness check. -/
structure UploadSlot where
  url : String
  expires : Option Int
deriving DecidableEq

/-- The upload-slot cache: `self.upload_urls` and
`self.upload_url_received_time`, keyed by upload type. -/
structure UploadState where
  uploadUrls : List (String × UploadSlot)
  receivedTime : List (String × Int)
deriving DecidableEq

/-- Observable actions of the upload path: a `getUrl` emission
(`request_upload_url`), the multipart POST to a presigned URL, and the
one-second wait of `handle_image_uploads`. -/
inductive UpAction
  | emitGetUrl (uploadType : String)
  | httpPost (url : String)
  | sleepOneSecond
deriving DecidableEq

/-- Staleness check of `upload_image_to_cloud` (lines 1120-1125): applies
only when a received-time is recorded for the type and the slot's
`expires` is truthy; the slot is stale once
`now - received ≥ expires - 30`. -/
def slotIsStale (st : UploadState) (uploadType : String) (slot : UploadSlot)
    (now : Int) : Bool :=
  match st.receivedTime.lookup uploadType, slot.expires with
  | some rt, some e => e != 0 && decide (now - rt ≥ e - 30)
  | _, _ => false

/-- Embedding of `upload_image_to_cloud` (lines 1110-1151).  Oracles: `emitOk` is the
truthiness of `request_upload_url`'s return value (it emits `getUrl` and
returns `True`; it returns a falsy value when disconnected, unregistered
or on an emit error); `slotsAfterRequest` is the content of
`self.upload_urls` at the re-read on line 1128, immediately after the
`getUrl` emission — the `getUrlResponse` handler updates the cache only
if it happens to run in between, so in a run where no response has
arrived this equals the old cache; `postOk` is whether the POST returned
status 200 or 204.  Returns the emitted actions and the success flag. -/
def upload_image_to_cloud (st : UploadState) (now : Int)
    (slotsAfterRequest : List (String × UploadSlot))
    (emitOk : Bool) (postOk : Bool) (uploadType : String) :
    List UpAction × Bool :=
  match st.uploadUrls.lookup uploadType with
  | none => ([], false)
  | some slot =>
    if slotIsStale st uploadType slot now then
      if emitOk then
        match slotsAfterRequest.lookup uploadType with
        | some slot' =>
          ([UpAction.emitGetUrl uploadType, UpAction.httpPost slot'.url], postOk)
        | none => ([UpAction.emitGetUrl uploadType], false)
      else ([UpAction.emitGetUrl uploadType], false)
    else
      ([UpAction.httpPost slot.url], postOk)

/-- The capture-and-upload tail of `handle_image_uploads` (lines
1182-1194): when an image was captured and no slot is cached for the
channel, emit a `getUrl` request and wait one second (during which the
response may arrive, giving `stAfterSleep`), then attempt the upload. -/
def handle_image_uploads_attempt (st : UploadState) (now : Int)
    (imageCaptured : Bool) (stAfterSleep : UploadState)
    (slotsAfterRequest : List (String × UploadSlot))
    (emitOk postOk : Bool) (uploadType : String) : List UpAction × Bool :=
  if imageCaptured then
    if (st.uploadUrls.lookup uploadType).isNone then
      let r := upload_image_to_cloud stAfterSleep now slotsAfterRequest
        emitOk postOk uploadType
      ([UpAction.emitGetUrl uploadType, UpAction.sleepOneSecond] ++ r.1, r.2)
    else
      upload_image_to_cloud st now slotsAfterRequest emitOk postOk uploadType
  else ([], false)

/-! ## Connection session and handshake (`setup_socketio_handlers`)

`setup_socketio_handlers` registers Socket.IO handlers by decorating
functions named `connect`, `disconnect`, ... — and registers `connect`,
`disconnect` and `connect_error` twice (lines 142-158 and 174-194).
python-socketio stores handlers in a dict keyed by the event name, so a
later registration replaces an earlier one; this is embedded by folding
the registration sequence into a table, exactly as dict assignment
does. -/

/-- The registration sequence of `setup_socketio_handlers` in source
order, each handler tagged with its occurrence number. -/
def handlerRegistrations : List (String × Nat) :=
  [("connect", 1), ("disconnect", 1), ("connect_error", 1), ("message", 1),
   ("connect", 2), ("disconnect", 2), ("connect_error", 2),
   ("welcome", 1), ("registerResponse", 1), ("helloResponse", 1),
   ("getUrlResponse", 1), ("print", 1), ("cancel", 1), ("update", 1),
   ("pause", 1), ("resume", 1), ("delete", 1), ("temperature", 1)]

/-- The effective handler table: registrations applied in order, each
overwriting the previous entry for its name (dict assignment in
python-socketio's `AsyncClient.on`). -/
def handlerTable : String → Option Nat :=
  handlerRegistrations.foldl
    (fun tbl nv => fun k => if k = nv.1 then some nv.2 else tbl k)
    (fun _ => none)

/-- The Session state of the connection/authentication machine.  `epoch`
is ghost instrumentation counting established connections, and
`challengeEpoch` records the epoch at which the stored challenge was
received; neither exists in the source and neither influences any
non-ghost field. -/
structure ConnSession where
  connected : Bool
  helloSent : Bool
  challenge : Option String
  serialNumber : Option String
  username : String
  pin : String
  epoch : Nat
  challengeEpoch : Nat
deriving DecidableEq

/-- Transport-level events delivered to the session, plus the `welcome`
protocol message carrying `data.get("challenge")`. -/
inductive ConnEvent
  | connectEv
  | disconnectEv
  | welcomeEv (challenge : Option String)
deriving DecidableEq

/-- Outbound handshake messages.  `register` (from `register_printer`)
carries no challenge at all; `hello` (from `send_hello`) signs the
stored challenge, recorded here together with the ghost epoch at which
that challenge was received. -/
inductive OutMsg
  | registerMsg
  | helloMsg (challenge : String) (challengeEpoch : Nat)
deriving DecidableEq

/-- The first `connect` handler (lines 142-147): sets `connected`,
resets `hello_sent` and clears the challenge. -/
def connectHandlerFirst (s : ConnSession) : ConnSession :=
  { s with connected := true, helloSent := false, challenge := none,
           epoch := s.epoch + 1 }

/-- The second `connect` handler (lines 174-179): sets `connected` and
writes the status file; it does not touch `hello_sent` or the
challenge. -/
def connectHandlerSecond (s : ConnSession) : ConnSession :=
  { s with connected := true, epoch := s.epoch + 1 }

/-- Both `disconnect` handlers (lines 149-153 and 181-187): clear
`connected` and `hello_sent`; neither clears the challenge. -/
def disconnectHandler (s : ConnSession) : ConnSession :=
  { s with connected := false, helloSent := false }

/-- The effective `connect` handler after all registrations. -/
def effectiveConnect (s : ConnSession) : ConnSession :=
  if handlerTable "connect" = some 2 then connectHandlerSecond s
  else connectHandlerFirst s

/-- Embedding of `send_hello` (lines 1229-1268): aborts when no challenge is stored;
otherwise emits a `hello` message signing the stored challenge and sets
`hello_sent`. -/
def send_hello (s : ConnSession) : ConnSession × List OutMsg :=
  match s.challenge with
  | none => (s, [])
  | some ch => ({ s with helloSent := true }, [OutMsg.helloMsg ch s.challengeEpoch])

/-- The `welcome` handler (lines 195-233): stores
`data.get("challenge")`, re-reads the serial number and credentials from
config, then registers (no serial, credentials present), says hello
(serial present), or only logs. -/
def welcomeHandler (s : ConnSession) (c : Option String) :
    ConnSession × List OutMsg :=
  let s := { s with challenge := c, challengeEpoch := s.epoch }
  if !truthyStr s.serialNumber && s.username != "" && s.pin != "" then
    (s, [OutMsg.registerMsg])
  else if truthyStr s.serialNumber then
    send_hello s
  else
    (s, [])

/-- One delivered event processed by the effective handlers; emitted
messages are tagged with the ghost connection epoch current at
emission. -/
def connStep (s : ConnSession) : ConnEvent → ConnSession × List (OutMsg × Nat)
  | ConnEvent.connectEv => (effectiveConnect s, [])
  | ConnEvent.disconnectEv => (disconnectHandler s, [])
  | ConnEvent.welcomeEv c =>
    let r := welcomeHandler s c
    (r.1, r.2.map (fun m => (m, r.1.epoch)))

/-- A whole delivered-event trace. -/
def connRun (s : ConnSession) : List ConnEvent → ConnSession × List (OutMsg × Nat)
  | [] => (s, [])
  | e :: rest =>
    let r := connStep s e
    let rr := connRun r.1 rest
    (rr.1, r.2 ++ rr.2)

/-- A handshake message is fresh when it is a register message (which
carries no challenge) or a hello whose signed challenge was received on
the connection current at emission. -/
def freshMsg : OutMsg × Nat → Bool
  | (OutMsg.registerMsg, _) => true
  | (OutMsg.helloMsg _ ce, ep) => ce == ep

/-! ## Registration response (`registerResponse` handler) -/

/-- The duck-typed `registerResponse` payload: a JSON object (its three
relevant keys, each possibly absent), a plain string, or anything
else. -/
inductive RegisterPayload
  | obj (status reason serialNumber : Option String)
  | str (s : String)
  | other
deriving DecidableEq

/-- The registration-relevant service state: `self.serial_number` and the
serial number stored in the config object. -/
structure RegState where
  serialNumber : Option String
  configSerial : Option String
deriving DecidableEq

/-- Observable effects of the `registerResponse` handler. -/
inductive RegAction
  | saveConfig
  | writeStatusFile
  | disconnect
deriving DecidableEq

/-- The `registerResponse` handler (lines 235-284): on a dict payload,
reads `status`, `reason` and `serialNumber` with `""` defaults; when
`status == "SUCCESS" and reason == "SUCCESS" and serial_number` it
stores and persists the serial number, writes the status file, and
deliberately disconnects; every other dict, any string, and any other
payload type only logs. -/
def registerResponse (st : RegState) (d : RegisterPayload) :
    RegState × List RegAction :=
  match d with
  | RegisterPayload.obj status reason serialNumber =>
    let status := status.getD ""
    let reason := reason.getD ""
    let serial := serialNumber.getD ""
    if status == "SUCCESS" && reason == "SUCCESS" && serial != "" then
      ({ serialNumber := some serial, configSerial := some serial },
       [RegAction.saveConfig, RegAction.writeStatusFile, RegAction.disconnect])
    else (st, [])
  | RegisterPayload.str _ => (st, [])
  | RegisterPayload.other => (st, [])

/-- Registration success exactly as claim C4 words it: the status field
equals SUCCESS, the reason field equals SUCCESS, and the payload carries
a non-empty serial number.  Compared against `registerResponse`, which
follows the source. -/
def claimedRegSuccess : RegisterPayload → Bool
  | RegisterPayload.obj status reason serialNumber =>
    status == some "SUCCESS" && reason == some "SUCCESS" &&
      serialNumber.getD "" != ""
  | _ => false

/-- The serial number carried by a registration payload. -/
def regSerialOf : RegisterPayload → Option String
  | RegisterPayload.obj _ _ serialNumber => serialNumber
  | _ => none

/-! ## Hello response (`helloResponse` handler) -/

/-- The duck-typed `helloResponse` payload. -/
inductive HelloPayload
  | obj (status message : Option String)
  | str (s : String)
  | other
deriving DecidableEq

/-- The authentication-relevant service state.  `statusTaskRunning`
embeds `hasattr(self, '_status_task') and not self._status_task.done()`;
`statusTaskCount` is ghost instrumentation counting the status-loop
tasks ever created. -/
structure AuthState where
  connected : Bool
  serialNumber : Option String
  helloSent : Bool
  statusTaskRunning : Bool
  statusTaskCount : Nat
deriving DecidableEq

/-- Observable effects of the `helloResponse` handler. -/
inductive AuthAction
  | writeStatusFile
  | emitGetUrl (uploadType : String)
deriving DecidableEq

/-- Embedding of `request_upload_url` (lines 1086-1108): returns without emitting when
disconnected or unregistered; otherwise emits one `getUrl` request. -/
def request_upload_url (st : AuthState) (uploadType : String) : List AuthAction :=
  if !st.connected || !truthyStr st.serialNumber then []
  else [AuthAction.emitGetUrl uploadType]

/-- The `helloResponse` handler (lines 286-332): computes success from
the payload (dict status `"SUCCESS"`, or a string equal to SUCCESS after
upcasing); on success sets `hello_sent`, writes the status file, creates
the status-loop task only if none is running, and requests an initial
idle upload URL; on failure clears `hello_sent`. -/
def helloResponse (st : AuthState) (d : HelloPayload) :
    AuthState × List AuthAction :=
  let success :=
    match d with
    | HelloPayload.obj status _ => status.getD "" == "SUCCESS"
    | HelloPayload.str s => s.toUpper == "SUCCESS"
    | HelloPayload.other => false
  if success then
    let st := { st with helloSent := true }
    let st :=
      if st.statusTaskRunning then st
      else { st with statusTaskRunning := true,
                     statusTaskCount := st.statusTaskCount + 1 }
    (st, AuthAction.writeStatusFile :: request_upload_url st "idle")
  else
    ({ st with helloSent := false }, [])

/-! ## The periodic operating cycle (`status_loop`)

Each sub-step of the cycle (`send_status`, `handle_image_uploads`,
`monitor_print_completion`, `send_version_info`) wraps its entire body
in `try ... except Exception: logger.error(...)`.  The body's external
interactions are abstracted as an `Except`-valued oracle per sub-step:
`Except.error` stands for the body raising.  Each wrapper returns into
`Except String _` so that the loop's own `except ... break` branch
(lines 1354-1356) can be embedded faithfully: a sub-step would stop the
loop exactly if its wrapper returned `Except.error`. -/

/-- The per-iteration oracle inputs of the four sub-steps. -/
structure CycleInput where
  statusIn : Except String Snapshot
  uploadIn : Except String Unit
  monitorIn : Except String (Option Nat × Option PrintStats)
  versionIn : Except String Unit

/-- The loop-relevant service state: the `while` guard flags plus the
state threaded through the sub-steps. -/
structure LoopState where
  running : Bool
  connected : Bool
  helloSent : Bool
  serialNumber : Option String
  send : SendState
  job : JobState

/-- Embedding of `send_status` with its outer `try/except` (lines 1270-1293): a
raising body is caught and logged, leaving the dedup state unchanged;
otherwise the transmission policy runs. -/
def sendStatusSub (i : Except String Snapshot) (s : SendState) :
    Except String (SendState × Bool) :=
  Except.ok (match i with
    | Except.error _ => (s, false)
    | Except.ok snap => send_status s snap)

/-- Embedding of `handle_image_uploads` with its outer `try/except` (lines
1153-1197): never propagates an exception. -/
def handleImageUploadsSub (i : Except String Unit) : Except String Unit :=
  Except.ok (match i with
    | Except.error _ => ()
    | Except.ok u => u)

/-- Embedding of `monitor_print_completion` with its outer `try/except` (lines
1440-1496): a raising body is caught and logged, leaving the job state
unchanged. -/
def monitorSub (i : Except String (Option Nat × Option PrintStats))
    (m : MonitorState) : Except String (MonitorState × List JobMsg) :=
  Except.ok (match i with
    | Except.error _ => (m, [])
    | Except.ok ov => monitor_print_completion m ov.1 ov.2)

/-- Embedding of `send_version_info` with its outer `try/except` (lines 616-635):
never propagates an exception. -/
def sendVersionInfoSub (i : Except String Unit) : Except String Unit :=
  Except.ok (match i with
    | Except.error _ => ()
    | Except.ok u => u)

/-- One iteration body of `status_loop` (lines 1342-1353): the four
sub-steps in their fixed order, sequenced in `Except` so that a raising
sub-step would abort the body. -/
def statusLoopBody (ls : LoopState) (i : CycleInput) : Except String LoopState := do
  let r ← sendStatusSub i.statusIn ls.send
  let _ ← handleImageUploadsSub i.uploadIn
  let m ← monitorSub i.monitorIn
    { connected := ls.connected, serialNumber := ls.serialNumber, job := ls.job }
  let _ ← sendVersionInfoSub i.versionIn
  pure { ls with send := r.1, job := m.1.job }

/-- Embedding of `status_loop` (lines 1339-1356): while `running and connected and
hello_sent`, run the body; on a body exception, log and `break`.
Returns the number of iterations completed. -/
def status_loop (ls : LoopState) : List CycleInput → Nat
  | [] => 0
  | i :: rest =>
    if ls.running && ls.connected && ls.helloSent then
      match statusLoopBody ls i with
      | Except.ok ls' => status_loop ls' rest + 1
      | Except.error _ => 0
    else 0

/-! ## Concrete fixtures used by counterexamples and witnesses -/

/-- An encoder oracle whose every output is three bytes long — over a
two-byte budget every ladder candidate fails. -/
def cexEnc : Nat → Nat × Nat → List Nat := fun _ _ => [0, 0, 0]

/-- A cached, expired `printing` slot: received at time 0 with a
300-second expiry; at time 400 the elapsed 400s exceed 300 − 30. -/
def staleUploadState : UploadState :=
  { uploadUrls := [("printing", { url := "https://old.example/upload", expires := some 300 })],
    receivedTime := [("printing", 0)] }

/-- A session holding a challenge received on the current connection,
about to lose the connection. -/
def staleSession : ConnSession :=
  { connected := true, helloSent := true, challenge := some "stale-challenge",
    serialNumber := some "PC123", username := "user", pin := "1234",
    epoch := 1, challengeEpoch := 1 }

/-- A connected, authenticated service tracking cloud job `"J1"` that is
neither preparing nor cancelling. -/
def trackedJobMonitor : MonitorState :=
  { connected := true, serialNumber := some "SN1",
    job := { jobIsPreparing := false, jobIsCancelling := false,
             isPrintingCloudJob := true, currentJobId := some "J1" } }

/-- A cycle iteration in which every sub-step's body raises. -/
def raisingCycleInput : CycleInput :=
  { statusIn := Except.error "boom", uploadIn := Except.error "boom",
    monitorIn := Except.error "boom", versionIn := Except.error "boom" }

/-- An authenticated loop state with all `while`-guard flags set. -/
def readyLoopState : LoopState :=
  { running := true, connected := true, helloSent := true,
    serialNumber := some "SN1", send := { lastStatus := none },
    job := { jobIsPreparing := false, jobIsCancelling := false,
             isPrintingCloudJob := false, currentJobId := none } }

/-! ## Theorems -/

/-- Claim C10: a `registerResponse` whose payload is a plain string (in
particular `"SUCCESS"`) performs no state change — the serial number is
not set, nothing is persisted, the connection is not closed, and the
handler returns normally. -/
theorem c10_register_string_noop (st : RegState) (s : String) :
    registerResponse st (RegisterPayload.str s) = (st, []) := rfl

/-- Claim C4: a registration response is treated as successful iff its
status field equals SUCCESS, its reason field equals SUCCESS and it
carries a non-empty serial number; on success the serial number is
stored and persisted and the connection is deliberately closed, and any
other response shape leaves the state unchanged (hence the serial number
unset when it was unset). -/
theorem c4_register_success_iff (st : RegState) (d : RegisterPayload) :
    (claimedRegSuccess d = true ↔ RegAction.disconnect ∈ (registerResponse st d).2) ∧
    (claimedRegSuccess d = true →
      (registerResponse st d).1.serialNumber = regSerialOf d ∧
      (registerResponse st d).1.configSerial = regSerialOf d ∧
      (registerResponse st d).2 =
        [RegAction.saveConfig, RegAction.writeStatusFile, RegAction.disconnect]) ∧
    (claimedRegSuccess d = false → registerResponse st d = (st, [])) := by
  cases d with
  | str s => simp [registerResponse, claimedRegSuccess]
  | other => simp [registerResponse, claimedRegSuccess]
  | obj status reason serialNumber =>
    cases status <;> cases reason <;> cases serialNumber <;>
      simp [registerResponse, claimedRegSuccess, regSerialOf, Option.getD] <;>
      aesop

/-- Witness for C4 at the spec's scenario payload. -/
theorem c4_register_success_iff_witness :
    claimedRegSuccess
        (RegisterPayload.obj (some "SUCCESS") (some "SUCCESS") (some "ABC123")) = true ∧
    (registerResponse { serialNumber := none, configSerial := none }
        (RegisterPayload.obj (some "SUCCESS") (some "SUCCESS") (some "ABC123"))).1.serialNumber =
      regSerialOf (RegisterPayload.obj (some "SUCCESS") (some "SUCCESS") (some "ABC123")) ∧
    RegAction.disconnect ∈
      (registerResponse { serialNumber := none, configSerial := none }
        (RegisterPayload.obj (some "SUCCESS") (some "SUCCESS") (some "ABC123"))).2 :=
  ⟨by decide,
   ((c4_register_success_iff { serialNumber := none, configSerial := none }
      (RegisterPayload.obj (some "SUCCESS") (some "SUCCESS") (some "ABC123"))).2.1
      (by decide)).1,
   (c4_register_success_iff { serialNumber := none, configSerial := none }
      (RegisterPayload.obj (some "SUCCESS") (some "SUCCESS") (some "ABC123"))).1.mp
      (by decide)⟩

/-- Claim C9: on a successful `helloResponse` the service marks the
session authenticated, ends up with the periodic cycle running, and
issues an initial idle-type upload-URL request; when the cycle is
already running no second task is created (the ghost task counter is
unchanged), and when it is not running exactly one task is created. -/
theorem c9_hello_success_starts_cycle (st : AuthState)
    (hc : st.connected = true) (hs : truthyStr st.serialNumber = true) :
    (helloResponse st (HelloPayload.obj (some "SUCCESS") none)).1.helloSent = true ∧
    (helloResponse st (HelloPayload.obj (some "SUCCESS") none)).1.statusTaskRunning = true ∧
    AuthAction.emitGetUrl "idle" ∈ (helloResponse st (HelloPayload.obj (some "SUCCESS") none)).2 ∧
    (st.statusTaskRunning = true →
      (helloResponse st (HelloPayload.obj (some "SUCCESS") none)).1.statusTaskCount =
        st.statusTaskCount) ∧
    (st.statusTaskRunning = false →
      (helloResponse st (HelloPayload.obj (some "SUCCESS") none)).1.statusTaskCount =
        st.statusTaskCount + 1) := by
  cases htask : st.statusTaskRunning <;>
    simp [helloResponse, request_upload_url, htask, hc, hs]

/-- Witness for C9 on a connected, registered, not-yet-running state. -/
theorem c9_hello_success_starts_cycle_witness :
    (helloResponse (AuthState.mk true (some "SN1") false false 0)
      (HelloPayload.obj (some "SUCCESS") none)).1.helloSent = true ∧
    (helloResponse (AuthState.mk true (some "SN1") false false 0)
      (HelloPayload.obj (some "SUCCESS") none)).1.statusTaskRunning = true ∧
    AuthAction.emitGetUrl "idle" ∈
      (helloResponse (AuthState.mk true (some "SN1") false false 0)
        (HelloPayload.obj (some "SUCCESS") none)).2 ∧
    ((AuthState.mk true (some "SN1") false false 0).statusTaskRunning = true →
      (helloResponse (AuthState.mk true (some "SN1") false false 0)
        (HelloPayload.obj (some "SUCCESS") none)).1.statusTaskCount =
        (AuthState.mk true (some "SN1") false false 0).statusTaskCount) ∧
    ((AuthState.mk true (some "SN1") false false 0).statusTaskRunning = false →
      (helloResponse (AuthState.mk true (some "SN1") false false 0)
        (HelloPayload.obj (some "SUCCESS") none)).1.statusTaskCount =
        (AuthState.mk true (some "SN1") false false 0).statusTaskCount + 1) :=
  c9_hello_success_starts_cycle (AuthState.mk true (some "SN1") false false 0) rfl rfl

/-- Counterexample to claim C1 as stated: the challenge is cleared
neither when the connection is lost (no `disconnect` handler touches
it) nor when a connection is established (the effective, later-registered
`connect` handler does not clear it), so after a disconnect followed by a
reconnect the session still stores the prior connection's challenge. -/
theorem c1_challenge_not_cleared_counterexample :
    (connStep staleSession ConnEvent.disconnectEv).1.challenge = some "stale-challenge" ∧
    (connStep (connStep staleSession ConnEvent.disconnectEv).1
        ConnEvent.connectEv).1.challenge = some "stale-challenge" := by
  constructor <;> rfl

/-- Per-step freshness: every handshake message emitted while processing
one event signs a challenge received at the current connection epoch. -/
theorem connStep_fresh (s : ConnSession) (e : ConnEvent) :
    ((connStep s e).2.all freshMsg) = true := by
  cases e with
  | connectEv => rfl
  | disconnectEv => rfl
  | welcomeEv c =>
    simp only [connStep, welcomeHandler, send_hello]
    cases c <;> split_ifs <;> simp [freshMsg]

/-- Claim C1 (amended): although the effective handlers never clear the
stored challenge on connect or disconnect, a hello or register message is
still never sent signed with a challenge received on a prior connection:
`register` carries no challenge, and `hello` is emitted only inside the
`welcome` handler immediately after storing the challenge delivered on
the current connection. -/
theorem c1_challenge_freshness (s : ConnSession) (evs : List ConnEvent) :
    ((connRun s evs).2.all freshMsg) = true := by
  induction evs generalizing s with
  | nil => rfl
  | cons e rest ih =>
    simp only [connRun, List.all_append]
    rw [connStep_fresh s e, ih]
    rfl

/-- While a cloud job is tracked (`is_printing_cloud_job` with a truthy
`current_job_id`) and no status override is active, `get_printer_status`
never maps any engine state to COMPLETE: the `complete` engine state
maps to POSTPROCESSING precisely because the job is still tracked. -/
theorem status_ne_complete_of_tracked (js : JobState) (stats : Option PrintStats)
    (h1 : js.isPrintingCloudJob = true) (h2 : truthyStr js.currentJobId = true) :
    get_printer_status none js stats ≠ PSTATE_COMPLETE := by
  simp only [get_printer_status, h1, h2]
  cases js.jobIsPreparing <;> cases stats <;>
    simp [PSTATE_PREPARING, PSTATE_COMPLETE, PSTATE_IDLE] <;>
    split_ifs <;>
    simp [PSTATE_CANCELLING, PSTATE_PRINTING, PSTATE_SERIAL, PSTATE_PAUSED,
      PSTATE_POSTPROCESSING, PSTATE_ERROR, PSTATE_IDLE, PSTATE_COMPLETE]

/-- Claim C2 is violated by the code: when the local engine reaches
state `complete` while cloud job `"J1"` is tracked, the mapped status is
POSTPROCESSING (not COMPLETE), `monitor_print_completion` emits nothing
and keeps the job; no `"job"` message with state `"completed"` is ever
emitted while a cloud job is tracked (for either value the status
override ever takes), and once the engine returns to `standby` the
monitor instead emits state `"canceled"`. -/
theorem c2_completed_notification_unreachable :
    get_printer_status none trackedJobMonitor.job (some { state := "complete" }) =
      PSTATE_POSTPROCESSING ∧
    monitor_print_completion trackedJobMonitor none (some { state := "complete" }) =
      (trackedJobMonitor, []) ∧
    (monitor_print_completion trackedJobMonitor none (some { state := "standby" })).2 =
      [{ jobId := "J1", jobState := "canceled" }] ∧
    (∀ (m : MonitorState) (stats : Option PrintStats),
      ((monitor_print_completion m none stats).2.all
        (fun msg => msg.jobState != "completed")) = true) ∧
    (∀ (m : MonitorState) (stats : Option PrintStats),
      ((monitor_print_completion m (some PSTATE_UPDATING) stats).2.all
        (fun msg => msg.jobState != "completed")) = true) := by
  refine ⟨rfl, rfl, rfl, ?_, ?_⟩
  · intro m stats
    by_cases hcj : m.job.isPrintingCloudJob = true
    · by_cases hid : truthyStr m.job.currentJobId = true
      · have hne := status_ne_complete_of_tracked m.job stats hcj hid
        simp only [monitor_print_completion, hcj, hid, Bool.and_self, if_true,
          if_neg hne]
        split_ifs with hio
        · simp only [send_job_completion]
          split_ifs <;> simp
        · simp
      · have hid' : truthyStr m.job.currentJobId = false := by simp_all
        simp [monitor_print_completion, hid']
    · have hcj' : m.job.isPrintingCloudJob = false := by simp_all
      simp [monitor_print_completion, hcj']
  · intro m stats
    simp only [monitor_print_completion, get_printer_status]
    by_cases hguard : (m.job.isPrintingCloudJob && truthyStr m.job.currentJobId) = true
    · simp only [hguard, if_true]
      split_ifs with h1 h2
      · exact absurd h1 (by decide)
      · simp only [send_job_completion]
        split_ifs <;> simp
      · simp
    · simp only [Bool.not_eq_true] at hguard
      simp [hguard]

/-- Claim C5: under the invariant that the cancel-requested flag is only
ever set while a cloud job is tracked (the code sets `job_is_cancelling`
only when `is_printing_cloud_job and current_job_id`), the status
mapping of `get_printer_status` coincides, for every poll input, with
the priority order exactly as the claim words it, `claimed_status`:
preparing-phase cloud job first, then the engine-state dispatch. -/
theorem c5_status_priority (p c cj : Bool) (j : Option String) (e : String)
    (h : c = true → cj = true) :
    claimed_status p c cj j e =
      get_printer_status none
        { jobIsPreparing := p, jobIsCancelling := c, isPrintingCloudJob := cj,
          currentJobId := j } (some { state := e }) := by
  cases c with
  | false =>
    cases p <;> cases cj <;> cases htj : truthyStr j <;>
      simp [claimed_status, get_printer_status, htj]
  | true =>
    have hcj : cj = true := h rfl
    subst hcj
    cases p <;> cases htj : truthyStr j <;>
      simp [claimed_status, get_printer_status, htj]

/-- Witness for C5: a printing engine with a tracked, cancelling cloud
job maps to CANCELLING on both readings. -/
theorem c5_status_priority_witness :
    ((true : Bool) = true → (true : Bool) = true) ∧
    claimed_status false true true (some "J1") "printing" =
      get_printer_status none
        { jobIsPreparing := false, jobIsCancelling := true, isPrintingCloudJob := true,
          currentJobId := some "J1" } (some { state := "printing" }) :=
  ⟨fun _ => rfl,
   c5_status_priority false true true (some "J1") "printing" (fun _ => rfl)⟩

/-- Counterexample to claim C3 as stated: with a one-byte input image, a
two-byte budget and an encoder whose every candidate is three bytes, all
ladder steps fail and the truncation fallback returns the one-byte
input — not data of length exactly the budget. -/
theorem c3_truncation_counterexample :
    ladderAllFail cexEnc 10 10 2 = true ∧
    resize_image cexEnc 10 10 [7] 2 = [7] ∧
    (resize_image cexEnc 10 10 [7] 2).length ≠ 2 := by
  refine ⟨rfl, rfl, by decide⟩

/-- When every scale step has positive floored dimensions, the scale
loop never raises: it either exhausts or accepts an encoding that fits
under the budget. -/
theorem scaleAttempts_no_raise (enc : Nat → Nat × Nat → List Nat)
    (w h maxSize : Nat) (l : List (Nat × Nat))
    (hall : (l.all (fun s => decide (0 < w * s.1 / s.2) &&
      decide (0 < h * s.1 / s.2))) = true) :
    scaleAttempts enc w h maxSize l = ScalePhase.exhausted ∨
      ∃ d, scaleAttempts enc w h maxSize l = ScalePhase.fits d ∧
        d.length ≤ maxSize := by
  induction l with
  | nil => exact Or.inl rfl
  | cons s rest ih =>
    simp only [List.all_cons, Bool.and_eq_true, decide_eq_true_eq] at hall
    obtain ⟨⟨hw, hh⟩, hrest⟩ := hall
    simp only [scaleAttempts]
    split_ifs with hz hfit
    · exact absurd hz (by simp [Nat.pos_iff_ne_zero.mp hw, Nat.pos_iff_ne_zero.mp hh])
    · exact Or.inr ⟨_, rfl, hfit⟩
    · exact ih hrest

/-- When every scale step has positive floored dimensions and every
scaled encoding exceeds the budget, the scale loop exhausts. -/
theorem scaleAttempts_exhausted (enc : Nat → Nat × Nat → List Nat)
    (w h maxSize : Nat) (l : List (Nat × Nat))
    (hpos : (l.all (fun s => decide (0 < w * s.1 / s.2) &&
      decide (0 < h * s.1 / s.2))) = true)
    (hbig : (l.all (fun s =>
      maxSize < (enc 60 (w * s.1 / s.2, h * s.1 / s.2)).length)) = true) :
    scaleAttempts enc w h maxSize l = ScalePhase.exhausted := by
  induction l with
  | nil => rfl
  | cons s rest ih =>
    simp only [List.all_cons, Bool.and_eq_true, decide_eq_true_eq] at hpos hbig
    obtain ⟨⟨hw, hh⟩, hrest⟩ := hpos
    obtain ⟨hs, hsrest⟩ := hbig
    simp only [scaleAttempts]
    split_ifs with hz hfit
    · exact absurd hz (by simp [Nat.pos_iff_ne_zero.mp hw, Nat.pos_iff_ne_zero.mp hh])
    · exact absurd hfit (Nat.not_le.mpr hs)
    · exact ih hrest hsrest

/-- Claim C3 (amended): for every encoder, input and byte budget the
resize pipeline returns data of length at most the budget whenever no
ladder step raises — in particular whenever every scale step yields
positive dimensions, which holds for all source images wider and taller
than 4 px; the truncation fallback, reached exactly when the quality
ladder (95, then 80 down to 20) and the scale ladder (0.8, 0.6, 0.4,
0.2 at quality 60) all fail without raising, returns the first
`min |input| B` bytes of the raw input, which is exactly `B` bytes
whenever the input has at least `B` bytes; and when the ladders are
reached but a scale step computes a zero dimension, PIL's resize raises
and the except handler returns the raw input unmodified, which may
exceed the budget. -/
theorem c3_resize_bound (enc : Nat → Nat × Nat → List Nat) (w h : Nat)
    (imageData : List Nat) (maxSize : Nat) :
    (scaleDimsPositive w h = true →
      (resize_image enc w h imageData maxSize).length ≤ maxSize) ∧
    (ladderAllFail enc w h maxSize = true → scaleDimsPositive w h = true →
      resize_image enc w h imageData maxSize = imageData.take maxSize) ∧
    (maxSize < (enc 95 (w, h)).length →
      (∀ q ∈ qualitySteps, maxSize < (enc q (w, h)).length) →
      scaleAttempts enc w h maxSize scaleSteps = ScalePhase.raised →
      resize_image enc w h imageData maxSize = imageData) := by
  refine ⟨?_, ?_, ?_⟩
  · intro hpos
    simp only [resize_image]
    split_ifs with h95
    · exact h95
    · cases hq : qualitySteps.find? (fun q => (enc q (w, h)).length ≤ maxSize) with
      | some q =>
        simpa using List.find?_some hq
      | none =>
        rcases scaleAttempts_no_raise enc w h maxSize scaleSteps hpos with
          hex | ⟨d, hd, hdl⟩
        · rw [hex]
          simp only [List.length_take]
          exact Nat.min_le_left _ _
        · rw [hd]
          exact hdl
  · intro hfail hpos
    simp only [ladderAllFail, Bool.and_eq_true, List.all_eq_true,
      decide_eq_true_eq] at hfail
    obtain ⟨⟨h95, hq⟩, hs⟩ := hfail
    simp only [resize_image]
    rw [if_neg (Nat.not_le.mpr h95)]
    rw [List.find?_eq_none.mpr (fun a ha => by
      simp only [decide_eq_true_eq]
      exact Nat.not_le.mpr (hq a ha))]
    rw [scaleAttempts_exhausted enc w h maxSize scaleSteps hpos
      (by simp only [List.all_eq_true, decide_eq_true_eq]
          exact hs)]
  · intro h95 hq hraised
    simp only [resize_image]
    rw [if_neg (Nat.not_le.mpr h95)]
    rw [List.find?_eq_none.mpr (fun a ha => by
      simp only [decide_eq_true_eq]
      exact Nat.not_le.mpr (hq a ha))]
    rw [hraised]

/-- Witness for C3: the all-fail encoder on a 10 by 10 image exercises
the truncation fallback, and on a 3 by 3 image (whose 0.2-scale
dimension floors to zero) exercises the raising except path, returning
the three-byte raw input over the two-byte budget. -/
theorem c3_resize_bound_witness :
    (ladderAllFail cexEnc 10 10 2 = true ∧ scaleDimsPositive 10 10 = true ∧
      resize_image cexEnc 10 10 [7] 2 = ([7] : List Nat).take 2) ∧
    (scaleAttempts cexEnc 3 3 2 scaleSteps = ScalePhase.raised ∧
      resize_image cexEnc 3 3 [9, 9, 9] 2 = [9, 9, 9]) :=
  ⟨⟨rfl, rfl, (c3_resize_bound cexEnc 10 10 [7] 2).2.1 rfl rfl⟩,
   ⟨rfl,
    (c3_resize_bound cexEnc 3 3 [9, 9, 9] 2).2.2 (by decide) (by decide) rfl⟩⟩

/-- In any run of `send_status`, every snapshot whose status is
PRINTING, SERIAL or PAUSED is transmitted. -/
theorem run_send_status_active_all (l : List Snapshot) : ∀ st : SendState,
    ((l.zip (run_send_status st l).2).all
      (fun p => !(decide (p.1.status = PSTATE_PRINTING) ||
                  decide (p.1.status = PSTATE_SERIAL) ||
                  decide (p.1.status = PSTATE_PAUSED)) || p.2)) = true := by
  induction l with
  | nil => intro st; rfl
  | cons s rest ih =>
    intro st
    simp only [run_send_status, List.zip_cons_cons, List.all_cons, Bool.and_eq_true]
    refine ⟨?_, ih _⟩
    by_cases ha : s.status = PSTATE_PRINTING ∨ s.status = PSTATE_SERIAL ∨
        s.status = PSTATE_PAUSED
    · simp [send_status, if_pos ha]
    · push_neg at ha
      simp [ha.1, ha.2.1, ha.2.2]

/-- Once the dedup state already holds an idle snapshot, replaying the
same snapshot transmits nothing. -/
theorem run_send_status_idle_absorbed (snap : Snapshot)
    (h : snap.status = PSTATE_IDLE) :
    ∀ n, ((run_send_status { lastStatus := some snap }
      (List.replicate n snap)).2.count true) = 0 := by
  intro n
  induction n with
  | zero => rfl
  | succ k ih =>
    have hstep : send_status { lastStatus := some snap } snap =
        ({ lastStatus := some snap }, false) := by
      simp [send_status, h, PSTATE_IDLE, PSTATE_PRINTING, PSTATE_SERIAL, PSTATE_PAUSED]
    simp only [List.replicate_succ, run_send_status, hstep]
    simpa using ih

/-- Claim C6: `send_status` transmits unconditionally exactly when the
snapshot's status is PRINTING, SERIAL or PAUSED or the snapshot differs
from the previously transmitted one; consequently every
PRINTING/SERIAL/PAUSED snapshot of a run is transmitted, and a run of
identical IDLE snapshots transmits at most one message. -/
theorem c6_transmission_dedup :
    (∀ (st : SendState) (snap : Snapshot),
        ((send_status st snap).2 = true ↔
          ((snap.status = PSTATE_PRINTING ∨ snap.status = PSTATE_SERIAL ∨
            snap.status = PSTATE_PAUSED) ∨ st.lastStatus ≠ some snap))) ∧
    (∀ (st : SendState) (l : List Snapshot),
        ((l.zip (run_send_status st l).2).all
          (fun p => !(decide (p.1.status = PSTATE_PRINTING) ||
                      decide (p.1.status = PSTATE_SERIAL) ||
                      decide (p.1.status = PSTATE_PAUSED)) || p.2)) = true) ∧
    (∀ (st : SendState) (snap : Snapshot) (n : Nat), snap.status = PSTATE_IDLE →
        ((run_send_status st (List.replicate n snap)).2.count true) ≤ 1) := by
  refine ⟨?_, fun st l => run_send_status_active_all l st, ?_⟩
  · intro st snap
    simp only [send_status]
    split_ifs with h1 h2
    · simp [h1]
    · simp only [Bool.false_eq_true, false_iff]
      intro hcon
      rcases hcon with hc | hc
      · exact h1 hc
      · exact hc h2.2
    · simp only [true_iff]
      rcases Classical.em (st.lastStatus = some snap) with he | he
      · rcases Classical.em (st.lastStatus.isSome = true) with hs | hs
        · exact absurd ⟨hs, he⟩ h2
        · right
          intro hc
          exact hs (by simp [hc])
      · exact Or.inr he
  · intro st snap n h
    cases n with
    | zero => simp [run_send_status]
    | succ k =>
      by_cases hl : st.lastStatus = some snap
      · have hst : st = { lastStatus := some snap } := by
          cases st
          simp_all
        subst hst
        rw [run_send_status_idle_absorbed snap h (k + 1)]
        exact Nat.zero_le 1
      · have hstep : send_status st snap = ({ lastStatus := some snap }, true) := by
          simp [send_status, h, hl, PSTATE_IDLE, PSTATE_PRINTING, PSTATE_SERIAL,
            PSTATE_PAUSED]
        simp only [List.replicate_succ, run_send_status, hstep]
        simpa using run_send_status_idle_absorbed snap h k

/-- Witness for C6: three identical idle snapshots from a fresh dedup
state transmit at most once. -/
theorem c6_transmission_dedup_witness :
    ((run_send_status { lastStatus := none }
      (List.replicate 3 { status := PSTATE_IDLE, fields := [] })).2.count true) ≤ 1 :=
  c6_transmission_dedup.2.2 { lastStatus := none }
    { status := PSTATE_IDLE, fields := [] } 3 rfl

/-- Counterexample to claim C7 as stated: with a stale cached
`printing` slot and no `getUrlResponse` arriving between the `getUrl`
emission and the cache re-read (the cache re-read yields the unchanged
cache), the multipart POST proceeds immediately — to the stale URL —
rather than waiting for the fresh presigned URL. -/
theorem c7_stale_post_counterexample :
    slotIsStale staleUploadState "printing"
        { url := "https://old.example/upload", expires := some 300 } 400 = true ∧
    upload_image_to_cloud staleUploadState 400 staleUploadState.uploadUrls true true
        "printing" =
      ([UpAction.emitGetUrl "printing", UpAction.httpPost "https://old.example/upload"],
        true) := by
  exact ⟨rfl, rfl⟩

/-- Claim C7 (amended): on an upload attempt whose cached slot is stale
(elapsed since received at least the declared expiry minus 30 seconds) a
fresh presigned URL is requested first, but its response is not waited
for: the POST proceeds immediately with whatever slot the cache holds at
the re-read — the stale slot's URL whenever no response has arrived —
and the attempt is aborted (returning false, without raising) when the
request cannot be issued or when no slot is cached at all. -/
theorem c7_stale_slot_requests_before_post (st : UploadState) (now : Int)
    (slots' : List (String × UploadSlot)) (emitOk postOk : Bool) (t : String)
    (slot : UploadSlot)
    (hslot : st.uploadUrls.lookup t = some slot)
    (hstale : slotIsStale st t slot now = true) :
    ((upload_image_to_cloud st now slots' emitOk postOk t).1.head? =
      some (UpAction.emitGetUrl t)) ∧
    (emitOk = true → slots' = st.uploadUrls →
      (upload_image_to_cloud st now slots' emitOk postOk t).1 =
        [UpAction.emitGetUrl t, UpAction.httpPost slot.url]) ∧
    (emitOk = false →
      upload_image_to_cloud st now slots' emitOk postOk t =
        ([UpAction.emitGetUrl t], false)) ∧
    (∀ st2 : UploadState, st2.uploadUrls.lookup t = none →
      upload_image_to_cloud st2 now slots' emitOk postOk t = ([], false)) := by
  refine ⟨?_, ?_, ?_, ?_⟩
  · simp only [upload_image_to_cloud, hslot, if_pos hstale]
    cases emitOk with
    | false => rfl
    | true => cases hs : slots'.lookup t <;> simp [hs]
  · intro he hsl
    subst he
    subst hsl
    simp [upload_image_to_cloud, hslot, if_pos hstale]
  · intro he
    subst he
    simp [upload_image_to_cloud, hslot, if_pos hstale]
  · intro st2 h2
    simp [upload_image_to_cloud, h2]

/-- Witness for C7 at the concrete stale cache. -/
theorem c7_stale_slot_requests_before_post_witness :
    ((upload_image_to_cloud staleUploadState 400 staleUploadState.uploadUrls true true
        "printing").1.head? = some (UpAction.emitGetUrl "printing")) ∧
    (upload_image_to_cloud staleUploadState 400 staleUploadState.uploadUrls true true
        "printing").1 =
      [UpAction.emitGetUrl "printing", UpAction.httpPost "https://old.example/upload"] :=
  ⟨(c7_stale_slot_requests_before_post staleUploadState 400
      staleUploadState.uploadUrls true true "printing"
      { url := "https://old.example/upload", expires := some 300 } rfl rfl).1,
   (c7_stale_slot_requests_before_post staleUploadState 400
      staleUploadState.uploadUrls true true "printing"
      { url := "https://old.example/upload", expires := some 300 } rfl rfl).2.1 rfl rfl⟩

/-- Every iteration body of `status_loop` returns normally — each
sub-step catches its own exceptions — and leaves the `while`-guard flags
untouched. -/
theorem statusLoopBody_ok (ls : LoopState) (i : CycleInput) :
    ∃ ls' : LoopState, statusLoopBody ls i = Except.ok ls' ∧
      ls'.running = ls.running ∧ ls'.connected = ls.connected ∧
      ls'.helloSent = ls.helloSent :=
  ⟨_, rfl, rfl, rfl, rfl⟩

/-- Claim C8: the periodic cycle never terminates because of an
exception raised by a sub-step's body: for every sequence of
per-iteration sub-step outcomes — including raising ones — the loop
completes every scheduled iteration. -/
theorem c8_cycle_survives_substep_failures (ls : LoopState)
    (inputs : List CycleInput) (hr : ls.running = true)
    (hc : ls.connected = true) (hh : ls.helloSent = true) :
    status_loop ls inputs = inputs.length := by
  induction inputs generalizing ls with
  | nil => rfl
  | cons i rest ih =>
    obtain ⟨ls', hbody, h1, h2, h3⟩ := statusLoopBody_ok ls i
    simp only [status_loop, hr, hc, hh, Bool.and_self, if_true, hbody]
    rw [ih ls' (h1.trans hr) (h2.trans hc) (h3.trans hh)]
    simp

/-- Witness for C8: two iterations whose every sub-step raises still
complete both iterations. -/
theorem c8_cycle_survives_substep_failures_witness :
    status_loop readyLoopState [raisingCycleInput, raisingCycleInput] =
      [raisingCycleInput, raisingCycleInput].length :=
  c8_cycle_survives_substep_failures readyLoopState
    [raisingCycleInput, raisingCycleInput] rfl rfl rfl

end PolarCloud
